import Mathlib

/-!
Verification development for the LiteGS helper scripts
`scripts/prepare_video.py` (Frame Extractor) and `scripts/run_colmap.py`
(Reconstruction Runner).

Both scripts are orchestration wrappers around external executables.
We embed each script's `main` as a pure function over an explicit
environment describing the outside world (which executables resolve,
whether input paths exist, the exit codes the external subprocesses
return, and which frame files exist before/after extraction), and
record every externally visible action of the wrapper in an event
trace: directory creations and subprocess invocations, in program
order.  Exit codes are modelled as naturals; an uncaught Python
exception terminates the interpreter with process exit code 1.
-/

namespace LiteGS

/-- A filesystem path, represented as its list of components
(the model of Python `pathlib.Path` objects after `resolve()`). -/
abbrev FsPath := List String

/-- Render a path as a string, as it appears inside a command line. -/
def str (p : FsPath) : String := String.intercalate "/" p

/-- An externally visible action of a wrapper script, in program order:
`mkdirP p` is `p.mkdir(parents=True, exist_ok=True)` (creates `p` and
missing parents; never modifies the contents of an existing directory),
`mkdir p` is `p.mkdir(exist_ok=True)`, and `runProc cmd code` is a
synchronous `subprocess.run(cmd)` that returned exit code `code`.
The scripts never write or delete files themselves, so these three
constructors exhaust their filesystem/process footprint. -/
inductive Ev where
  | mkdirP (p : FsPath)
  | mkdir (p : FsPath)
  | runProc (cmd : List String) (code : Nat)
deriving DecidableEq

/-- How a script run terminates: `exit c` is a normal return of `c`
from `main` (passed to `sys.exit`), `raised m` is an uncaught Python
exception with message `m`. -/
inductive Outcome where
  | exit (code : Nat)
  | raised (msg : String)
deriving DecidableEq

/-- The operating-system exit code of the Python process: the returned
code on a normal return, and 1 when an exception escapes `main`. -/
def processExitCode : Outcome → Nat
  | .exit c => c
  | .raised _ => 1

/-- The subcommand (second argument) of a subprocess invocation event. -/
def subcommandOf : Ev → Option String
  | .runProc cmd _ => cmd.get? 1
  | _ => none

/-- Whether the trace contains a subprocess invocation of the given
subcommand of the reconstruction tool. -/
def invokes (evs : List Ev) (sub : String) : Bool :=
  evs.any (fun e => decide (subcommandOf e = some sub))

/-- The filesystem (directory-creation) events of a trace. -/
def fsEvents (evs : List Ev) : List Ev :=
  evs.filter (fun e => match e with | .runProc _ _ => false | _ => true)

/-- The path a filesystem event acts on. -/
def evPath : Ev → Option FsPath
  | .mkdirP p => some p
  | .mkdir p => some p
  | .runProc _ _ => none

/-- `isUnder base p` holds when `p` equals `base` or lies inside the
directory `base` (component-wise prefix). -/
def isUnder (base p : FsPath) : Bool := decide (p.take base.length = base)

theorem isUnder_false_of_longer (base p : FsPath) (h : p.length < base.length) :
    isUnder base p = false := by
  simp only [isUnder, decide_eq_false_iff_not]
  intro heq
  have h1 := congrArg List.length heq
  rw [List.length_take] at h1
  omega

namespace PrepareVideo

/-- The parsed command line of `prepare_video.py`; defaults mirror the
`argparse` defaults (`--fps 10`, `--overwrite` absent). -/
structure Args where
  video : FsPath
  out : FsPath
  fps : Int := 10
  overwrite : Bool := false

/-- The environment of one `prepare_video.py` run: the result of
`shutil.which("ffmpeg")`, whether the input video exists, the names in
`<out>/images` matching `frame_*.png` before the run, the exit code the
ffmpeg subprocess would return, and the frame-file names it writes
(created or overwritten; the subprocess deletes nothing). -/
structure Env where
  which : Option String
  videoExists : Bool
  preFrames : List String
  exitCode : Nat
  newFrames : List String

/-- The observable result of a run. `reportedCount` is the frame count
printed by the success message, when one is printed. -/
structure Result where
  outcome : Outcome
  events : List Ev
  reportedCount : Option Nat
deriving DecidableEq

/-- The set of files matching `frame_*.png` after the subprocess ran:
the pre-existing names together with the freshly written ones
(overwriting a name does not duplicate it). -/
def globUnion (pre new : List String) : List String :=
  pre ++ new.filter (fun x => !(pre.contains x))

/-- The single ffmpeg command line built by `main`:
`[ffmpeg, -y|-n, -i, video, -vf, fps=N, -pix_fmt, rgb24, pattern,
-hide_banner, -loglevel, error]`. -/
def ffmpegCmd (ffmpeg : String) (video images_dir : FsPath) (fps : Int)
    (overwrite : Bool) : List String :=
  [ffmpeg, if overwrite then "-y" else "-n", "-i", str video, "-vf",
   "fps=" ++ toString fps, "-pix_fmt", "rgb24",
   str (images_dir ++ ["frame_%05d.png"]), "-hide_banner", "-loglevel", "error"]

/-- Embedding of `main` of `scripts/prepare_video.py`: resolve ffmpeg
(raising `FileNotFoundError` if absent), check the video exists, create
`<out>/images`, apply the overwrite guard, run ffmpeg, propagate its
failure code, and fail with 1 if no frame file matches afterwards. -/
def main (env : Env) (args : Args) : Result :=
  match env.which with
  | none =>
    { outcome := .raised "ffmpeg not found, install it and add it to PATH",
      events := [], reportedCount := none }
  | some ffmpeg =>
    if !env.videoExists then
      { outcome := .exit 1, events := [], reportedCount := none }
    else
      let images_dir := args.out ++ ["images"]
      let evs0 := [Ev.mkdirP images_dir]
      if !args.overwrite && !env.preFrames.isEmpty then
        { outcome := .exit 1, events := evs0, reportedCount := none }
      else
        let cmd := ffmpegCmd ffmpeg args.video images_dir args.fps args.overwrite
        let evs1 := evs0 ++ [Ev.runProc cmd env.exitCode]
        if env.exitCode ≠ 0 then
          { outcome := .exit env.exitCode, events := evs1, reportedCount := none }
        else
          let frames := globUnion env.preFrames env.newFrames
          if frames.isEmpty then
            { outcome := .exit 1, events := evs1, reportedCount := none }
          else
            { outcome := .exit 0, events := evs1, reportedCount := some frames.length }

end PrepareVideo

namespace RunColmap

/-- The caller-selected matching strategy (`--matcher`). -/
inductive Matcher where
  | sequential
  | exhaustive
deriving DecidableEq

/-- The parsed command line of `run_colmap.py`; defaults mirror the
`argparse` defaults (`--matcher sequential`, `--single_camera` absent,
`--threads 8`). -/
structure Args where
  images : FsPath
  out : FsPath
  matcher : Matcher := .sequential
  single_camera : Bool := false
  threads : Int := 8

/-- The three bundled candidate locations checked by `ensure_colmap`,
in source order, relative to the installation root `here`. -/
def candidates (here : FsPath) : List FsPath :=
  [here ++ ["tools", "colmap", "COLMAP.bat"],
   here ++ ["tools", "colmap", "bin", "colmap.exe"],
   here ++ ["tools", "colmap", "bin", "colmap"]]

/-- Embedding of `ensure_colmap`: scan the bundled candidates in order
and return the first that exists on the filesystem `fs`; otherwise fall
back to `shutil.which("colmap")`; otherwise raise `FileNotFoundError`. -/
def ensure_colmap (here : FsPath) (fs : FsPath → Bool) (which : Option String) :
    Except String String :=
  match (candidates here).find? fs with
  | some c => .ok (str c)
  | none =>
    match which with
    | some colmap => .ok colmap
    | none => .error "colmap not found (checked tools/colmap and PATH)"

/-- The environment of one `run_colmap.py` run: the installation root,
the filesystem existence predicate consulted for bundled candidates,
the result of `shutil.which("colmap")`, whether `--images` exists, the
exit codes the four stage subprocesses would return, and whether
`sparse/0` exists after mapping. -/
structure Env where
  here : FsPath
  fs : FsPath → Bool
  which : Option String
  imagesExists : Bool
  featExit : Nat
  matchExit : Nat
  mapExit : Nat
  modelDirExists : Bool
  convExit : Nat

/-- The observable result of a run. `converterWarning` is the non-fatal
warning printed to stderr when the model-converter stage fails. -/
structure Result where
  outcome : Outcome
  events : List Ev
  converterWarning : Option String

/-- Message of the `RuntimeError` raised by `run_cmd` on a non-zero
subprocess exit code. -/
def cmdFailMsg (code : Nat) : String :=
  "Command failed with exit code " ++ toString code

/-- Embedding of `main` of `scripts/run_colmap.py`: resolve the tool,
check `--images` exists, create `<out>` and `<out>/sparse`, then run
feature extraction, matching and mapping through `run_cmd` (which
raises on non-zero exit), and finally, if `sparse/0` exists, run the
best-effort model converter, whose failure is caught and logged. -/
def main (env : Env) (args : Args) : Result :=
  match ensure_colmap env.here env.fs env.which with
  | .error e => { outcome := .raised e, events := [], converterWarning := none }
  | .ok colmap =>
    if !env.imagesExists then
      { outcome := .exit 1, events := [], converterWarning := none }
    else
      let out_root := args.out
      let sparse_dir := out_root ++ ["sparse"]
      let db_path := out_root ++ ["database.db"]
      let evs0 := [Ev.mkdirP out_root, Ev.mkdir sparse_dir]
      let feat_cmd :=
        [colmap, "feature_extractor", "--database_path", str db_path,
         "--image_path", str args.images] ++
        (if args.single_camera then ["--ImageReader.single_camera", "1"] else [])
      let evs1 := evs0 ++ [Ev.runProc feat_cmd env.featExit]
      if env.featExit ≠ 0 then
        { outcome := .raised (cmdFailMsg env.featExit), events := evs1,
          converterWarning := none }
      else
        let match_cmd :=
          match args.matcher with
          | .sequential => [colmap, "sequential_matcher", "--database_path", str db_path]
          | .exhaustive => [colmap, "exhaustive_matcher", "--database_path", str db_path]
        let evs2 := evs1 ++ [Ev.runProc match_cmd env.matchExit]
        if env.matchExit ≠ 0 then
          { outcome := .raised (cmdFailMsg env.matchExit), events := evs2,
            converterWarning := none }
        else
          let mapper_cmd :=
            [colmap, "mapper", "--database_path", str db_path,
             "--image_path", str args.images, "--output_path", str sparse_dir,
             "--Mapper.num_threads", toString args.threads]
          let evs3 := evs2 ++ [Ev.runProc mapper_cmd env.mapExit]
          if env.mapExit ≠ 0 then
            { outcome := .raised (cmdFailMsg env.mapExit), events := evs3,
              converterWarning := none }
          else
            let model_dir := sparse_dir ++ ["0"]
            if env.modelDirExists then
              let converter_cmd :=
                [colmap, "model_converter", "--input_path", str model_dir,
                 "--output_path", str model_dir, "--output_type", "TXT"]
              let evs4 := evs3 ++ [Ev.runProc converter_cmd env.convExit]
              if env.convExit ≠ 0 then
                { outcome := .exit 0, events := evs4,
                  converterWarning :=
                    some ("model_converter failed (bin is still usable): " ++
                          cmdFailMsg env.convExit) }
              else
                { outcome := .exit 0, events := evs4, converterWarning := none }
            else
              { outcome := .exit 0, events := evs3, converterWarning := none }

/-- The resolution order as the specification states it: the bundled
launcher `tools/colmap/COLMAP.bat`, then `tools/colmap/bin/colmap.exe`,
then `tools/colmap/bin/colmap`, first existing candidate wins; then a
system-wide PATH lookup; then a tool-not-found error. -/
def ensure_colmap_spec (here : FsPath) (fs : FsPath → Bool) (which : Option String) :
    Except String String :=
  if fs (here ++ ["tools", "colmap", "COLMAP.bat"]) then
    .ok (str (here ++ ["tools", "colmap", "COLMAP.bat"]))
  else if fs (here ++ ["tools", "colmap", "bin", "colmap.exe"]) then
    .ok (str (here ++ ["tools", "colmap", "bin", "colmap.exe"]))
  else if fs (here ++ ["tools", "colmap", "bin", "colmap"]) then
    .ok (str (here ++ ["tools", "colmap", "bin", "colmap"]))
  else
    match which with
    | some p => .ok p
    | none => .error "colmap not found (checked tools/colmap and PATH)"

end RunColmap

/-- C3: `ensure_colmap` checks, in this exact order, the bundled
launcher `tools/colmap/COLMAP.bat`, then `tools/colmap/bin/colmap.exe`,
then `tools/colmap/bin/colmap`, returning the first candidate that
exists; if none exists it falls back to a PATH lookup, and if that also
fails it raises a tool-not-found error. -/
theorem c3_executable_resolution_order (here : FsPath) (fs : FsPath → Bool)
    (which : Option String) :
    RunColmap.ensure_colmap here fs which = RunColmap.ensure_colmap_spec here fs which := by
  unfold RunColmap.ensure_colmap RunColmap.ensure_colmap_spec RunColmap.candidates
  cases h1 : fs (here ++ ["tools", "colmap", "COLMAP.bat"]) <;>
  cases h2 : fs (here ++ ["tools", "colmap", "bin", "colmap.exe"]) <;>
  cases h3 : fs (here ++ ["tools", "colmap", "bin", "colmap"]) <;>
    simp [List.find?, h1, h2, h3]

/-- C7: for both tools, when the required executable cannot be located
the run raises before any filesystem mutation and before any
subprocess: the event trace is empty and the process exits non-zero
(code 1, from the uncaught `FileNotFoundError`). -/
theorem c7_tool_not_found_before_any_mutation
    (penv : PrepareVideo.Env) (pargs : PrepareVideo.Args)
    (cenv : RunColmap.Env) (cargs : RunColmap.Args)
    (hp : penv.which = none)
    (hfs : ∀ c ∈ RunColmap.candidates cenv.here, cenv.fs c = false)
    (hw : cenv.which = none) :
    ((PrepareVideo.main penv pargs).events = [] ∧
      processExitCode (PrepareVideo.main penv pargs).outcome = 1 ∧
      (∃ m, (PrepareVideo.main penv pargs).outcome = .raised m)) ∧
    ((RunColmap.main cenv cargs).events = [] ∧
      processExitCode (RunColmap.main cenv cargs).outcome = 1 ∧
      (∃ m, (RunColmap.main cenv cargs).outcome = .raised m)) := by
  have hfind : (RunColmap.candidates cenv.here).find? cenv.fs = none := by
    rw [List.find?_eq_none]
    intro x hx
    simp [hfs x hx]
  constructor
  · simp [PrepareVideo.main, hp, processExitCode]
  · simp [RunColmap.main, RunColmap.ensure_colmap, hfind, hw, processExitCode]

/-- Concrete Frame Extractor environment for the C7 witness: ffmpeg
absent from PATH, video present. -/
def c7_penv : PrepareVideo.Env := ⟨none, true, [], 0, []⟩

/-- Concrete Frame Extractor arguments for the C7 witness. -/
def c7_pargs : PrepareVideo.Args := ⟨["v.mp4"], ["out"], 10, false⟩

/-- Concrete Reconstruction Runner environment for the C7 witness: no
bundled candidate exists and PATH lookup fails. -/
def c7_cenv : RunColmap.Env := ⟨["litegs"], fun _ => false, none, true, 0, 0, 0, false, 0⟩

/-- Concrete Reconstruction Runner arguments for the C7 witness. -/
def c7_cargs : RunColmap.Args := ⟨["imgs"], ["out"], .sequential, false, 8⟩

theorem c7_tool_not_found_before_any_mutation_witness :
    c7_penv.which = none ∧
    (∀ c ∈ RunColmap.candidates c7_cenv.here, c7_cenv.fs c = false) ∧
    c7_cenv.which = none ∧
    (((PrepareVideo.main c7_penv c7_pargs).events = [] ∧
      processExitCode (PrepareVideo.main c7_penv c7_pargs).outcome = 1 ∧
      (∃ m, (PrepareVideo.main c7_penv c7_pargs).outcome = .raised m)) ∧
    ((RunColmap.main c7_cenv c7_cargs).events = [] ∧
      processExitCode (RunColmap.main c7_cenv c7_cargs).outcome = 1 ∧
      (∃ m, (RunColmap.main c7_cenv c7_cargs).outcome = .raised m))) :=
  ⟨rfl, fun _ _ => rfl, rfl,
   c7_tool_not_found_before_any_mutation c7_penv c7_pargs c7_cenv c7_cargs
     rfl (fun _ _ => rfl) rfl⟩

/-- C4: without `--overwrite`, when a `frame_*.png` file already exists
in `<out>/images`, the run exits with code 1 and its whole event trace
is the single idempotent `mkdir` of `<out>/images`: no subprocess is
ever started and no existing file is touched. -/
theorem c4_overwrite_guard_aborts_before_extraction
    (env : PrepareVideo.Env) (args : PrepareVideo.Args) (f : String)
    (hw : env.which = some f) (hv : env.videoExists = true)
    (hov : args.overwrite = false) (hpre : env.preFrames ≠ []) :
    (PrepareVideo.main env args).outcome = .exit 1 ∧
    (PrepareVideo.main env args).events = [Ev.mkdirP (args.out ++ ["images"])] ∧
    (∀ cmd code, Ev.runProc cmd code ∉ (PrepareVideo.main env args).events) := by
  have hne : env.preFrames.isEmpty = false := by
    cases h : env.preFrames with
    | nil => exact absurd h hpre
    | cons a l => rfl
  refine ⟨?_, ?_, ?_⟩ <;>
    simp [PrepareVideo.main, hw, hv, hov, hne]

/-- Concrete environment for the C4 witness: ffmpeg found, video
present, one pre-existing frame, `--overwrite` absent. -/
def c4_env : PrepareVideo.Env := ⟨some "ffmpeg", true, ["frame_00001.png"], 0, []⟩

/-- Concrete arguments for the C4 witness. -/
def c4_args : PrepareVideo.Args := ⟨["v.mp4"], ["out"], 10, false⟩

theorem c4_overwrite_guard_aborts_before_extraction_witness :
    c4_env.which = some "ffmpeg" ∧ c4_env.videoExists = true ∧
    c4_args.overwrite = false ∧ c4_env.preFrames ≠ [] ∧
    ((PrepareVideo.main c4_env c4_args).outcome = .exit 1 ∧
     (PrepareVideo.main c4_env c4_args).events = [Ev.mkdirP (c4_args.out ++ ["images"])] ∧
     (∀ cmd code, Ev.runProc cmd code ∉ (PrepareVideo.main c4_env c4_args).events)) :=
  ⟨rfl, rfl, rfl, by decide,
   c4_overwrite_guard_aborts_before_extraction c4_env c4_args "ffmpeg" rfl rfl rfl (by decide)⟩

/-- C9: with `--overwrite` and at least one pre-existing `frame_*.png`
file, a zero subprocess exit code always yields process exit 0: the
post-run glob contains the pre-existing frames (nothing deletes them),
so the no-frames-generated failure branch is unreachable. -/
theorem c9_overwrite_preexisting_no_frames_branch_unreachable
    (env : PrepareVideo.Env) (args : PrepareVideo.Args) (f : String)
    (hw : env.which = some f) (hv : env.videoExists = true)
    (hov : args.overwrite = true) (hpre : env.preFrames ≠ [])
    (hexit : env.exitCode = 0) :
    (PrepareVideo.main env args).outcome = .exit 0 ∧
    processExitCode (PrepareVideo.main env args).outcome = 0 := by
  have hne : (PrepareVideo.globUnion env.preFrames env.newFrames).isEmpty = false := by
    cases h : env.preFrames with
    | nil => exact absurd h hpre
    | cons a l => simp [PrepareVideo.globUnion, h]
  constructor <;>
    simp [PrepareVideo.main, hw, hv, hov, hexit, hne, processExitCode]

/-- Concrete environment for the C9 witness: overwrite run over three
pre-existing frames where ffmpeg succeeds but writes nothing new. -/
def c9_env : PrepareVideo.Env :=
  ⟨some "ffmpeg", true, ["frame_00001.png", "frame_00002.png", "frame_00003.png"], 0, []⟩

/-- Concrete arguments for the C9 witness. -/
def c9_args : PrepareVideo.Args := ⟨["v.mp4"], ["out"], 10, true⟩

theorem c9_overwrite_preexisting_no_frames_branch_unreachable_witness :
    c9_env.which = some "ffmpeg" ∧ c9_env.videoExists = true ∧
    c9_args.overwrite = true ∧ c9_env.preFrames ≠ [] ∧ c9_env.exitCode = 0 ∧
    ((PrepareVideo.main c9_env c9_args).outcome = .exit 0 ∧
     processExitCode (PrepareVideo.main c9_env c9_args).outcome = 0) :=
  ⟨rfl, rfl, rfl, by decide, rfl,
   c9_overwrite_preexisting_no_frames_branch_unreachable c9_env c9_args "ffmpeg"
     rfl rfl rfl (by decide) rfl⟩

/-- C6: with ffmpeg resolved, the Frame Extractor's process exit code
is exactly 0 on success; 1 when the video is missing, when the
overwrite guard aborts, or when the subprocess exits 0 but no file
matches the frame pattern afterwards; and the subprocess's own exit
code when it fails. -/
theorem c6_exit_code_characterization
    (env : PrepareVideo.Env) (args : PrepareVideo.Args) (f : String)
    (hw : env.which = some f) :
    processExitCode (PrepareVideo.main env args).outcome =
      if env.videoExists = false then 1
      else if args.overwrite = false ∧ env.preFrames ≠ [] then 1
      else if env.exitCode ≠ 0 then env.exitCode
      else if PrepareVideo.globUnion env.preFrames env.newFrames = [] then 1
      else 0 := by
  cases hv : env.videoExists <;>
  cases hov : args.overwrite <;>
  cases hpre : env.preFrames <;>
  by_cases hex : env.exitCode = 0 <;>
  rcases hglob : PrepareVideo.globUnion env.preFrames env.newFrames with _ | ⟨a, l⟩ <;>
    simp_all [PrepareVideo.main, PrepareVideo.globUnion, processExitCode]

/-- Concrete environment for the C6 witness: a failing subprocess whose
exit code 3 is passed through. -/
def c6_env : PrepareVideo.Env := ⟨some "ffmpeg", true, [], 3, []⟩

/-- Concrete arguments for the C6 witness. -/
def c6_args : PrepareVideo.Args := ⟨["v.mp4"], ["out"], 10, false⟩

theorem c6_exit_code_characterization_witness :
    c6_env.which = some "ffmpeg" ∧
    processExitCode (PrepareVideo.main c6_env c6_args).outcome =
      (if c6_env.videoExists = false then 1
       else if c6_args.overwrite = false ∧ c6_env.preFrames ≠ [] then 1
       else if c6_env.exitCode ≠ 0 then c6_env.exitCode
       else if PrepareVideo.globUnion c6_env.preFrames c6_env.newFrames = [] then 1
       else 0) :=
  ⟨rfl, c6_exit_code_characterization c6_env c6_args "ffmpeg" rfl⟩

/-- Concrete environment for the C5 counterexample: `--overwrite` run
with three pre-existing frames; the new extraction writes exactly one
file (`frame_00001.png`), yet the success message reports 3 frames. -/
def c5_env : PrepareVideo.Env :=
  ⟨some "ffmpeg", true, ["frame_00001.png", "frame_00002.png", "frame_00003.png"], 0,
   ["frame_00001.png"]⟩

/-- Concrete arguments for the C5 counterexample. -/
def c5_args : PrepareVideo.Args := ⟨["v.mp4"], ["out"], 10, true⟩

/-- C5 counterexample: the claim says the reported frame count
"reflects only the files produced by the new extraction run", but with
three pre-existing frames and one newly produced file the program
reports 3, not 1: the two pre-existing frames not overwritten by the
new run do contribute to the count. -/
theorem c5_count_only_new_frames_counterexample :
    c5_args.overwrite = true ∧
    c5_env.newFrames.length = 1 ∧
    (PrepareVideo.main c5_env c5_args).reportedCount = some 3 ∧
    (PrepareVideo.main c5_env c5_args).reportedCount ≠ some c5_env.newFrames.length := by
  refine ⟨rfl, rfl, ?_, ?_⟩ <;> decide

/-- C5 amended: with `--overwrite`, the run passes the tool its
force-overwrite flag (`-y`, so colliding frame files are replaced), and
on success the reported frame count is the number of files matching
`frame_*.png` present after the run — the new files together with any
pre-existing frames the new run did not overwrite. -/
theorem c5_overwrite_count_is_post_run_glob
    (env : PrepareVideo.Env) (args : PrepareVideo.Args) (f : String)
    (hw : env.which = some f) (hv : env.videoExists = true)
    (hov : args.overwrite = true) (hexit : env.exitCode = 0)
    (hne : PrepareVideo.globUnion env.preFrames env.newFrames ≠ []) :
    (PrepareVideo.main env args).outcome = .exit 0 ∧
    (PrepareVideo.main env args).reportedCount =
      some (PrepareVideo.globUnion env.preFrames env.newFrames).length ∧
    Ev.runProc (PrepareVideo.ffmpegCmd f args.video (args.out ++ ["images"]) args.fps true) 0
      ∈ (PrepareVideo.main env args).events ∧
    (PrepareVideo.ffmpegCmd f args.video (args.out ++ ["images"]) args.fps true).get? 1 =
      some "-y" := by
  have hne' : (PrepareVideo.globUnion env.preFrames env.newFrames).isEmpty = false := by
    cases h : PrepareVideo.globUnion env.preFrames env.newFrames with
    | nil => exact absurd h hne
    | cons a l => rfl
  refine ⟨?_, ?_, ?_, ?_⟩ <;>
    simp [PrepareVideo.main, PrepareVideo.ffmpegCmd, hw, hv, hov, hexit, hne']

theorem c5_overwrite_count_is_post_run_glob_witness :
    c5_env.which = some "ffmpeg" ∧ c5_env.videoExists = true ∧
    c5_args.overwrite = true ∧ c5_env.exitCode = 0 ∧
    PrepareVideo.globUnion c5_env.preFrames c5_env.newFrames ≠ [] ∧
    ((PrepareVideo.main c5_env c5_args).outcome = .exit 0 ∧
     (PrepareVideo.main c5_env c5_args).reportedCount =
       some (PrepareVideo.globUnion c5_env.preFrames c5_env.newFrames).length ∧
     Ev.runProc (PrepareVideo.ffmpegCmd "ffmpeg" c5_args.video (c5_args.out ++ ["images"])
         c5_args.fps true) 0 ∈ (PrepareVideo.main c5_env c5_args).events ∧
     (PrepareVideo.ffmpegCmd "ffmpeg" c5_args.video (c5_args.out ++ ["images"])
         c5_args.fps true).get? 1 = some "-y") :=
  ⟨rfl, rfl, rfl, rfl, by decide,
   c5_overwrite_count_is_post_run_glob c5_env c5_args "ffmpeg" rfl rfl rfl rfl (by decide)⟩

/-- Concrete environment for the C10 counterexample: the input video
exists, but ffmpeg is not on PATH. -/
def c10_env : PrepareVideo.Env := ⟨none, true, [], 0, []⟩

/-- Concrete arguments for the C10 counterexample. -/
def c10_args : PrepareVideo.Args := ⟨["v.mp4"], ["data", "job"], 10, false⟩

/-- C10 counterexample: the claim quantifies over every run where the
input video exists, but when ffmpeg is not found the `FileNotFoundError`
is raised before the video check and `<out>/images` is never created:
the event trace of such a run is empty. -/
theorem c10_images_dir_created_counterexample :
    c10_env.videoExists = true ∧
    (PrepareVideo.main c10_env c10_args).events = [] ∧
    Ev.mkdirP (c10_args.out ++ ["images"]) ∉ (PrepareVideo.main c10_env c10_args).events := by
  refine ⟨rfl, rfl, ?_⟩ ; decide

/-- C10 amended: in every run where ffmpeg is found and the input video
exists, `<out>/images` is created (parents included, idempotently) as
the very first event, before the overwrite guard and before any
subprocess; hence even runs that subsequently fail leave it created. -/
theorem c10_images_dir_created_before_guard_and_subprocess
    (env : PrepareVideo.Env) (args : PrepareVideo.Args) (f : String)
    (hw : env.which = some f) (hv : env.videoExists = true) :
    ∃ rest, (PrepareVideo.main env args).events =
      Ev.mkdirP (args.out ++ ["images"]) :: rest := by
  unfold PrepareVideo.main
  rw [hw]
  simp only [hv, Bool.not_true, Bool.false_eq_true, if_false]
  split
  · exact ⟨_, rfl⟩
  · split
    · exact ⟨_, rfl⟩
    · split
      · exact ⟨_, rfl⟩
      · exact ⟨_, rfl⟩

/-- Concrete environment for the C10 amended witness: ffmpeg found,
video present, guard-abort run. -/
def c10w_env : PrepareVideo.Env := ⟨some "ffmpeg", true, ["frame_00001.png"], 0, []⟩

/-- Concrete arguments for the C10 amended witness. -/
def c10w_args : PrepareVideo.Args := ⟨["v.mp4"], ["data", "job"], 10, false⟩

theorem c10_images_dir_created_before_guard_and_subprocess_witness :
    c10w_env.which = some "ffmpeg" ∧ c10w_env.videoExists = true ∧
    (∃ rest, (PrepareVideo.main c10w_env c10w_args).events =
      Ev.mkdirP (c10w_args.out ++ ["images"]) :: rest) :=
  ⟨rfl, rfl,
   c10_images_dir_created_before_guard_and_subprocess c10w_env c10w_args "ffmpeg" rfl rfl⟩

/-- C1: when mapping completes with exit code 0 (feature extraction and
matching having succeeded), `sparse/0` exists and the model-conversion
subprocess fails, the failure is caught, a warning is logged, the
process exits 0, and the wrapper's only filesystem actions are the two
directory creations of `<out>` and `<out>/sparse`, neither of which is
at or under `<out>/sparse/0` — the binary model files there are left
present and unchanged by the wrapper. -/
theorem c1_converter_failure_nonfatal
    (env : RunColmap.Env) (args : RunColmap.Args) (c : String)
    (hok : RunColmap.ensure_colmap env.here env.fs env.which = .ok c)
    (him : env.imagesExists = true)
    (hfeat : env.featExit = 0) (hmatch : env.matchExit = 0) (hmap : env.mapExit = 0)
    (hmodel : env.modelDirExists = true) (hconv : env.convExit ≠ 0) :
    (RunColmap.main env args).outcome = .exit 0 ∧
    processExitCode (RunColmap.main env args).outcome = 0 ∧
    (RunColmap.main env args).converterWarning.isSome = true ∧
    fsEvents (RunColmap.main env args).events =
      [Ev.mkdirP args.out, Ev.mkdir (args.out ++ ["sparse"])] ∧
    (∀ e ∈ fsEvents (RunColmap.main env args).events, ∀ p, evPath e = some p →
      isUnder (args.out ++ ["sparse", "0"]) p = false) := by
  have h1 : isUnder (args.out ++ ["sparse", "0"]) args.out = false := by
    apply isUnder_false_of_longer
    simp
  have h2 : isUnder (args.out ++ ["sparse", "0"]) (args.out ++ ["sparse"]) = false := by
    apply isUnder_false_of_longer
    simp
  refine ⟨?_, ?_, ?_, ?_, ?_⟩ <;>
    simp [RunColmap.main, hok, him, hfeat, hmatch, hmap, hmodel, hconv,
          processExitCode, fsEvents, evPath, h1, h2]

/-- Concrete Reconstruction Runner environment for the C1 witness: tool
found on PATH, all pipeline stages succeed, `sparse/0` exists, and the
converter fails with exit code 5. -/
def c1_env : RunColmap.Env :=
  ⟨["litegs"], fun _ => false, some "colmap", true, 0, 0, 0, true, 5⟩

/-- Concrete arguments for the C1 witness. -/
def c1_args : RunColmap.Args := ⟨["imgs"], ["job"], .sequential, false, 8⟩

theorem c1_converter_failure_nonfatal_witness :
    RunColmap.ensure_colmap c1_env.here c1_env.fs c1_env.which = .ok "colmap" ∧
    c1_env.imagesExists = true ∧ c1_env.featExit = 0 ∧ c1_env.matchExit = 0 ∧
    c1_env.mapExit = 0 ∧ c1_env.modelDirExists = true ∧ c1_env.convExit ≠ 0 ∧
    ((RunColmap.main c1_env c1_args).outcome = .exit 0 ∧
     processExitCode (RunColmap.main c1_env c1_args).outcome = 0 ∧
     (RunColmap.main c1_env c1_args).converterWarning.isSome = true ∧
     fsEvents (RunColmap.main c1_env c1_args).events =
       [Ev.mkdirP c1_args.out, Ev.mkdir (c1_args.out ++ ["sparse"])] ∧
     (∀ e ∈ fsEvents (RunColmap.main c1_env c1_args).events, ∀ p, evPath e = some p →
       isUnder (c1_args.out ++ ["sparse", "0"]) p = false)) :=
  ⟨rfl, rfl, rfl, rfl, rfl, rfl, by decide,
   c1_converter_failure_nonfatal c1_env c1_args "colmap" rfl rfl rfl rfl rfl rfl (by decide)⟩

/-- C2: when a fatal pipeline stage fails (non-zero exit from feature
extraction, matching or mapping), no later-stage subprocess is ever
invoked — in particular, mapping failure means the model converter is
never attempted — and the process exits non-zero (the `RuntimeError`
raised by `run_cmd` escapes `main`). -/
theorem c2_stage_failure_stops_pipeline
    (env : RunColmap.Env) (args : RunColmap.Args) (c : String)
    (hok : RunColmap.ensure_colmap env.here env.fs env.which = .ok c)
    (him : env.imagesExists = true) :
    (env.featExit ≠ 0 →
      invokes (RunColmap.main env args).events "sequential_matcher" = false ∧
      invokes (RunColmap.main env args).events "exhaustive_matcher" = false ∧
      invokes (RunColmap.main env args).events "mapper" = false ∧
      invokes (RunColmap.main env args).events "model_converter" = false ∧
      processExitCode (RunColmap.main env args).outcome ≠ 0) ∧
    (env.featExit = 0 → env.matchExit ≠ 0 →
      invokes (RunColmap.main env args).events "mapper" = false ∧
      invokes (RunColmap.main env args).events "model_converter" = false ∧
      processExitCode (RunColmap.main env args).outcome ≠ 0) ∧
    (env.featExit = 0 → env.matchExit = 0 → env.mapExit ≠ 0 →
      invokes (RunColmap.main env args).events "model_converter" = false ∧
      processExitCode (RunColmap.main env args).outcome ≠ 0) := by
  refine ⟨fun h => ?_, fun hf h => ?_, fun hf hm h => ?_⟩ <;>
  cases hmm : args.matcher <;>
  cases hsc : args.single_camera <;>
    simp_all [RunColmap.main, hok, him, invokes, subcommandOf, processExitCode]

/-- Concrete Reconstruction Runner environment for the C2 witness:
feature extraction succeeds and mapping fails with exit code 2. -/
def c2_env : RunColmap.Env :=
  ⟨["litegs"], fun _ => false, some "colmap", true, 0, 0, 2, false, 0⟩

/-- Concrete arguments for the C2 witness. -/
def c2_args : RunColmap.Args := ⟨["imgs"], ["job"], .sequential, false, 8⟩

theorem c2_stage_failure_stops_pipeline_witness :
    RunColmap.ensure_colmap c2_env.here c2_env.fs c2_env.which = .ok "colmap" ∧
    c2_env.imagesExists = true ∧
    ((c2_env.featExit ≠ 0 →
      invokes (RunColmap.main c2_env c2_args).events "sequential_matcher" = false ∧
      invokes (RunColmap.main c2_env c2_args).events "exhaustive_matcher" = false ∧
      invokes (RunColmap.main c2_env c2_args).events "mapper" = false ∧
      invokes (RunColmap.main c2_env c2_args).events "model_converter" = false ∧
      processExitCode (RunColmap.main c2_env c2_args).outcome ≠ 0) ∧
    (c2_env.featExit = 0 → c2_env.matchExit ≠ 0 →
      invokes (RunColmap.main c2_env c2_args).events "mapper" = false ∧
      invokes (RunColmap.main c2_env c2_args).events "model_converter" = false ∧
      processExitCode (RunColmap.main c2_env c2_args).outcome ≠ 0) ∧
    (c2_env.featExit = 0 → c2_env.matchExit = 0 → c2_env.mapExit ≠ 0 →
      invokes (RunColmap.main c2_env c2_args).events "model_converter" = false ∧
      processExitCode (RunColmap.main c2_env c2_args).outcome ≠ 0)) :=
  ⟨rfl, rfl, c2_stage_failure_stops_pipeline c2_env c2_args "colmap" rfl rfl⟩

/-- C8: once feature extraction succeeds, the matching stage invokes
`sequential_matcher` when `--matcher` is sequential and
`exhaustive_matcher` when it is exhaustive, in both cases against the
same database path `<out>/database.db` that the feature-extraction
command used; and the default when the flag is omitted is sequential. -/
theorem c8_matcher_selection_and_shared_database
    (env : RunColmap.Env) (args : RunColmap.Args) (c : String) (i o : FsPath)
    (hok : RunColmap.ensure_colmap env.here env.fs env.which = .ok c)
    (him : env.imagesExists = true) (hfeat : env.featExit = 0) :
    (args.matcher = RunColmap.Matcher.sequential →
      Ev.runProc [c, "sequential_matcher", "--database_path",
        str (args.out ++ ["database.db"])] env.matchExit ∈ (RunColmap.main env args).events) ∧
    (args.matcher = RunColmap.Matcher.exhaustive →
      Ev.runProc [c, "exhaustive_matcher", "--database_path",
        str (args.out ++ ["database.db"])] env.matchExit ∈ (RunColmap.main env args).events) ∧
    (∃ rest fcode, Ev.runProc
        ([c, "feature_extractor", "--database_path", str (args.out ++ ["database.db"]),
          "--image_path", str args.images] ++ rest) fcode ∈ (RunColmap.main env args).events) ∧
    ({ images := i, out := o } : RunColmap.Args).matcher = RunColmap.Matcher.sequential := by
  refine ⟨fun hm => ?_, fun hm => ?_, ?_, rfl⟩ <;>
  [skip; skip;
   refine ⟨if args.single_camera then ["--ImageReader.single_camera", "1"] else [], env.featExit, ?_⟩] <;>
  by_cases hm2 : env.matchExit = 0 <;>
  by_cases hm3 : env.mapExit = 0 <;>
  cases hmd : env.modelDirExists <;>
  by_cases hcv : env.convExit = 0 <;>
    simp_all [RunColmap.main, hok, him]

/-- Concrete Reconstruction Runner environment for the C8 witness: all
stages succeed. -/
def c8_env : RunColmap.Env :=
  ⟨["litegs"], fun _ => false, some "colmap", true, 0, 0, 0, true, 0⟩

/-- Concrete arguments for the C8 witness: sequential matching. -/
def c8_args : RunColmap.Args := ⟨["imgs"], ["job"], .sequential, false, 8⟩

theorem c8_matcher_selection_and_shared_database_witness :
    RunColmap.ensure_colmap c8_env.here c8_env.fs c8_env.which = .ok "colmap" ∧
    c8_env.imagesExists = true ∧ c8_env.featExit = 0 ∧
    ((c8_args.matcher = RunColmap.Matcher.sequential →
      Ev.runProc ["colmap", "sequential_matcher", "--database_path",
        str (c8_args.out ++ ["database.db"])] c8_env.matchExit ∈ (RunColmap.main c8_env c8_args).events) ∧
    (c8_args.matcher = RunColmap.Matcher.exhaustive →
      Ev.runProc ["colmap", "exhaustive_matcher", "--database_path",
        str (c8_args.out ++ ["database.db"])] c8_env.matchExit ∈ (RunColmap.main c8_env c8_args).events) ∧
    (∃ rest fcode, Ev.runProc
        (["colmap", "feature_extractor", "--database_path", str (c8_args.out ++ ["database.db"]),
          "--image_path", str c8_args.images] ++ rest) fcode ∈ (RunColmap.main c8_env c8_args).events) ∧
    ({ images := ["i"], out := ["o"] } : RunColmap.Args).matcher = RunColmap.Matcher.sequential) :=
  ⟨rfl, rfl, rfl,
   c8_matcher_selection_and_shared_database c8_env c8_args "colmap" ["i"] ["o"] rfl rfl rfl⟩

end LiteGS
